import Mathlib

/-!
Shallow embedding of the SPSC channel from `src/aufgabe1/spsc/src/main.rs`.

The channel is a `VecDeque<T>` behind an `Arc<Mutex<...>>`, shared by a
`Producer` and a `Consumer` handle.  We model:

* the `VecDeque` as a list of elements together with its allocated
  capacity (the Rust-2015-era `VecDeque` keeps a power-of-two ring
  buffer and reports `allocation - 1` as its capacity; the repository's
  own test `test_consumer_pop` pins this down via
  `capacity.next_power_of_two() - 1`);
* lock acquisition as a boolean `lockOk` parameter (a poisoned mutex
  makes `lock()` return `Err`);
* the possible outcomes of a call as `Outcome`: normal return `ok`,
  error return `err`, or a process-aborting `panicked msg` (the code
  calls the panic macro on several lock-failure paths);
* the busy-wait loop inside `Consumer::recv` with explicit fuel:
  `none` means the loop is still spinning after `fuel` iterations.
-/

namespace Spsc

/-- Rust `Error { message: String }` from the source. -/
structure Error where
  message : String
deriving DecidableEq

/-- Rust `SendError<T>(pub T)` from the source: a tuple struct holding
only the rejected value.  It has no message field. -/
structure SendError (T : Type) where
  val : T
deriving DecidableEq

/-- Rust `RecvError { message: String }` from the source. -/
structure RecvError where
  message : String
deriving DecidableEq

/-- Outcome of calling one of the channel's public operations:
a normal return, an error return, or a panic that aborts the process. -/
inductive Outcome (ε α : Type) where
  | ok (a : α)
  | err (e : ε)
  | panicked (msg : String)
deriving DecidableEq

/-- Rust's `usize::next_power_of_two`, computed by doubling from 1
(fuel-recursive so that it evaluates by reduction; `n` doublings always
suffice to reach a power of two `≥ n`). -/
def nextPow2Go (n : Nat) : Nat → Nat → Nat
  | power, 0 => power
  | power, fuel + 1 => if power < n then nextPow2Go n (power * 2) fuel else power

/-- The smallest power of two that is `≥ n` (and `1` for `n = 0`). -/
def nextPow2 (n : Nat) : Nat := nextPow2Go n 1 n

/-- Capacity reported by `VecDeque::with_capacity(n)` in the Rust
version the repository targets: the ring buffer allocates
`max(n+1, 2).next_power_of_two()` slots and reports one less. -/
def vecCap (n : Nat) : Nat :=
  nextPow2 (max (n + 1) 2) - 1

/-- The shared queue: element buffer (front at the head of the list)
plus the allocated capacity of the ring buffer. -/
structure VecDeque (T : Type) where
  buf : List T
  cap : Nat
deriving DecidableEq

namespace VecDeque

/-- `VecDeque::with_capacity(n)`: empty buffer, pre-allocated storage. -/
def with_capacity (T : Type) (n : Nat) : VecDeque T :=
  { buf := [], cap := vecCap n }

/-- `VecDeque::len()`. -/
def len (q : VecDeque T) : Nat := q.buf.length

/-- `VecDeque::capacity()`. -/
def capacity (q : VecDeque T) : Nat := q.cap

/-- `VecDeque::push_back(v)`: appends unconditionally; when the buffer
is full the ring buffer doubles its allocation, so the reported
capacity goes from `cap` to `2*cap + 1`. -/
def push_back (q : VecDeque T) (v : T) : VecDeque T :=
  { buf := q.buf ++ [v]
    cap := if q.buf.length = q.cap then 2 * q.cap + 1 else q.cap }

/-- `VecDeque::pop_front()`: removes and returns the front element,
`none` when empty.  Capacity is untouched. -/
def pop_front (q : VecDeque T) : Option T × VecDeque T :=
  match q.buf with
  | [] => (none, q)
  | v :: rest => (some v, { buf := rest, cap := q.cap })

end VecDeque

/-- The panic message used by `Producer::send`, and (copy-pasted in the
source) by all four `capacity`/`size` methods. -/
def sendLockMsg : String := "Producer::send() could not lock mutex."

/-- The `RecvError` message for a failed `lock()` in `Consumer::recv`. -/
def recvLockMsg : String := "Consumer::recv() could not lock mutex."

/-- The `RecvError` message of the (dead) post-loop `None` branch in
`Consumer::recv`. -/
def recvNoneMsg : String := "Consumer::recv() pop_front() returned None."

namespace Producer

/-- `Producer::send(value)`: on a successful lock, pushes to the back
and returns `Ok(())` (we return the updated queue); on a lock failure
the source panics instead of returning `SendError`. -/
def send (lockOk : Bool) (q : VecDeque T) (v : T) :
    Outcome (SendError T) (VecDeque T) :=
  if lockOk then .ok (q.push_back v) else .panicked sendLockMsg

/-- `Producer::capacity()`: reports the buffer capacity, panics on a
lock failure. -/
def capacity (lockOk : Bool) (q : VecDeque T) : Outcome Error Nat :=
  if lockOk then .ok q.cap else .panicked sendLockMsg

/-- `Producer::size()`: reports the buffer length, panics on a lock
failure. -/
def size (lockOk : Bool) (q : VecDeque T) : Outcome Error Nat :=
  if lockOk then .ok q.buf.length else .panicked sendLockMsg

end Producer

namespace Consumer

/-- The `loop` inside `Consumer::recv`, with explicit fuel.  Each
iteration runs `result = queue.pop_front()` and breaks only when it got
`Some`; on `None` it loops again, still holding the mutex guard.
`none` means the loop has not terminated within `fuel` iterations. -/
def popLoop : Nat → List T → Option (Option T × List T)
  | 0, _ => none
  | fuel + 1, q =>
    match q with
    | [] => popLoop fuel []
    | v :: rest => some (some v, rest)

/-- `Consumer::recv()`: locks the queue (or returns a `RecvError` when
the lock fails), then busy-waits in `popLoop`; when the loop exits, the
post-loop `match` turns `Some v` into `Ok(v)` and `None` into a
`RecvError` (that branch is dead).  `none` models a call that is still
spinning. -/
def recv (lockOk : Bool) (fuel : Nat) (q : VecDeque T) :
    Option (Except RecvError T × VecDeque T) :=
  if lockOk then
    match popLoop fuel q.buf with
    | none => none
    | some (result, buf') =>
      match result with
      | none => some (.error { message := recvNoneMsg }, { buf := buf', cap := q.cap })
      | some r => some (.ok r, { buf := buf', cap := q.cap })
  else
    some (.error { message := recvLockMsg }, q)

/-- `Consumer::capacity()`: identical body to the producer's, including
the panic on lock failure (with the copy-pasted message). -/
def capacity (lockOk : Bool) (q : VecDeque T) : Outcome Error Nat :=
  if lockOk then .ok q.cap else .panicked sendLockMsg

/-- `Consumer::size()`: identical body to the producer's, including the
panic on lock failure. -/
def size (lockOk : Bool) (q : VecDeque T) : Outcome Error Nat :=
  if lockOk then .ok q.buf.length else .panicked sendLockMsg

end Consumer

/-- `channel(capacity)`: one fresh shared queue, referenced by both
handles; in the embedding the shared queue itself is the channel
state. -/
def channel (T : Type) (capacity : Nat) : VecDeque T :=
  VecDeque.with_capacity T capacity

/-! ### Lock-event traces for `Consumer::recv`

To reason about the locking discipline of the busy-wait we record the
sequence of lock-relevant events a `recv` call performs: acquiring the
guard, each `pop_front` attempt (failed or successful), and dropping
the guard on return. -/

/-- Lock-relevant events during one `Consumer::recv` call. -/
inductive LockEvent where
  | acquire
  | popNone
  | popSome
  | release
deriving DecidableEq

/-- Events emitted by the busy-wait loop: one `popNone` per failed
`pop_front`, a final `popSome` when it breaks.  The mutex guard is
alive for the whole loop, so no `release` ever appears here. -/
def popLoopTrace : Nat → List T → List LockEvent
  | 0, _ => []
  | fuel + 1, q =>
    match q with
    | [] => LockEvent.popNone :: popLoopTrace fuel ([] : List T)
    | _ :: _ => [LockEvent.popSome]

/-- The full event trace of `Consumer::recv` with a successful lock:
acquire, the loop's pop attempts, and — only if the loop terminated —
the guard drop at return. -/
def recvTrace (fuel : Nat) (q : List T) : List LockEvent :=
  match Consumer.popLoop fuel q with
  | none => LockEvent.acquire :: popLoopTrace fuel q
  | some _ => LockEvent.acquire :: (popLoopTrace fuel q ++ [LockEvent.release])

/-- `true` iff the trace never has two failed pop attempts with no
lock release between them (the spec's "each failed pop attempt must
release the lock before retrying"). -/
def releasesBetweenFails : List LockEvent → Bool
  | e1 :: e2 :: rest =>
    (!(e1 == LockEvent.popNone && e2 == LockEvent.popNone)) &&
      releasesBetweenFails (e2 :: rest)
  | _ => true

/-! ### Sequential runs -/

/-- A sequential channel operation (used for single-threaded runs). -/
inductive Op (T : Type) where
  | send (v : T)
  | recv
deriving DecidableEq

/-- State change of one operation under the lock (a `recv` on an empty
queue changes nothing — in the code it never returns). -/
def applyOp (q : VecDeque T) : Op T → VecDeque T
  | .send v => q.push_back v
  | .recv => (q.pop_front).2

/-- Run a sequence of operations left to right. -/
def runOps (q : VecDeque T) : List (Op T) → VecDeque T
  | [] => q
  | op :: ops => runOps (applyOp q op) ops

/-- Send every value of `vs`, in order, through `Producer::send`. -/
def sendAll (q : VecDeque T) (vs : List T) : VecDeque T :=
  vs.foldl VecDeque.push_back q

/-- Receive `n` values sequentially: the list of received values in
order and the final queue.  A pop of an empty queue ends the run with
nothing further received (in the code that call never returns). -/
def recvN : Nat → VecDeque T → List T × VecDeque T
  | 0, q => ([], q)
  | n + 1, q =>
    match q.pop_front with
    | (some v, q') =>
      let r := recvN n q'
      (v :: r.1, r.2)
    | (none, q') => ([], q')

/-- `true` iff an `Except` value is a normal (`ok`) result. -/
def isOkE : Except ε α → Bool
  | .ok _ => true
  | .error _ => false

/-! ### Helper lemmas -/

theorem popLoop_nil (fuel : Nat) : Consumer.popLoop fuel ([] : List T) = none := by
  induction fuel with
  | zero => rfl
  | succ n ih => simpa [Consumer.popLoop] using ih

theorem popLoop_some {fuel : Nat} {q : List T} {r : Option T} {buf' : List T}
    (h : Consumer.popLoop fuel q = some (r, buf')) : ∃ v, r = some v := by
  induction fuel generalizing q with
  | zero => simp [Consumer.popLoop] at h
  | succ n ih =>
    cases q with
    | nil => exact ih (by simpa [Consumer.popLoop] using h)
    | cons v rest =>
      simp [Consumer.popLoop] at h
      exact ⟨v, h.1.symm⟩

theorem sendAll_buf (q : VecDeque T) (vs : List T) :
    (sendAll q vs).buf = q.buf ++ vs := by
  induction vs generalizing q with
  | nil => simp [sendAll]
  | cons v rest ih =>
    simp [sendAll] at ih ⊢
    rw [ih (q.push_back v)]
    simp [VecDeque.push_back]

theorem recvN_fst (vs : List T) (q : VecDeque T) (h : q.buf = vs) :
    (recvN vs.length q).1 = vs := by
  induction vs generalizing q with
  | nil => simp [recvN]
  | cons v rest ih =>
    simp [recvN, VecDeque.pop_front, h]
    exact ih { buf := rest, cap := q.cap } rfl

theorem recvN_snd_buf (j : Nat) (q : VecDeque T) :
    (recvN j q).2.buf = q.buf.drop j := by
  induction j generalizing q with
  | zero => simp [recvN]
  | succ n ih =>
    cases hb : q.buf with
    | nil => simp [recvN, VecDeque.pop_front, hb]
    | cons v rest =>
      simp [recvN, VecDeque.pop_front, hb]
      exact ih { buf := rest, cap := q.cap }

theorem cap_le_applyOp (q : VecDeque T) (op : Op T) :
    q.cap ≤ (applyOp q op).cap := by
  cases op with
  | send v =>
    simp only [applyOp, VecDeque.push_back]
    split <;> omega
  | recv =>
    simp only [applyOp, VecDeque.pop_front]
    cases q.buf <;> simp

theorem cap_le_runOps (q : VecDeque T) (ops : List (Op T)) :
    q.cap ≤ (runOps q ops).cap := by
  induction ops generalizing q with
  | nil => simp [runOps]
  | cons op ops ih =>
    exact le_trans (cap_le_applyOp q op) (ih (applyOp q op))

/-! ### Claim theorems -/

/-- C1: the claim says `Producer::send(v)` on a lock failure returns
`Err(SendError(v))` and never terminates the process, and the same
no-panic requirement holds for `send`, `capacity` and `size`.  The code
instead panics on every one of those paths (only `recv` returns an
error), so the claim describes the spec's intent, not the code: at the
failing input (a poisoned lock, any value) `send` panics with
"Producer::send() could not lock mutex." rather than returning
`SendError`, and so do all four `capacity`/`size` methods. -/
theorem send_and_observers_panic_on_lock_failure :
    Producer.send false ({ buf := [], cap := 3 } : VecDeque Nat) 7 =
      Outcome.panicked sendLockMsg ∧
    Producer.capacity false ({ buf := [], cap := 3 } : VecDeque Nat) =
      Outcome.panicked sendLockMsg ∧
    Producer.size false ({ buf := [], cap := 3 } : VecDeque Nat) =
      Outcome.panicked sendLockMsg ∧
    Consumer.capacity false ({ buf := [], cap := 3 } : VecDeque Nat) =
      Outcome.panicked sendLockMsg ∧
    Consumer.size false ({ buf := [], cap := 3 } : VecDeque Nat) =
      Outcome.panicked sendLockMsg :=
  ⟨rfl, rfl, rfl, rfl, rfl⟩

/-- C2: the claim says every failed `pop_front` attempt in
`Consumer::recv` releases the lock before the next retry.  In the code
the `MutexGuard` lives across the whole busy-wait loop, so on an empty
queue the trace is one `acquire` followed by consecutive failed pops
with no `release` anywhere — the code violates the spec's locking
discipline (the producer is locked out while the consumer spins). -/
theorem recv_spins_holding_lock :
    recvTrace 3 ([] : List Nat) =
      [LockEvent.acquire, LockEvent.popNone, LockEvent.popNone, LockEvent.popNone] ∧
    releasesBetweenFails (recvTrace 3 ([] : List Nat)) = false :=
  ⟨rfl, rfl⟩

/-- C3: `Consumer::recv` returns `Ok` with the front element whenever
one is available; an `Err(RecvError)` arises only from a lock failure
(and then carries the lock message); with an acquirable lock an empty
queue never produces an error (the call keeps spinning instead). -/
theorem recv_contract :
    (∀ (T : Type) (fuel cap : Nat) (v : T) (rest : List T),
      Consumer.recv true (fuel + 1) { buf := v :: rest, cap := cap } =
        some (Except.ok v, { buf := rest, cap := cap })) ∧
    (∀ (T : Type) (lockOk : Bool) (fuel : Nat) (q : VecDeque T)
        (e : RecvError) (q' : VecDeque T),
      Consumer.recv lockOk fuel q = some (Except.error e, q') →
        lockOk = false ∧ e = { message := recvLockMsg }) ∧
    (∀ (T : Type) (fuel cap : Nat),
      Consumer.recv (T := T) true fuel { buf := [], cap := cap } = none) := by
  refine ⟨?_, ?_, ?_⟩
  · intro T fuel cap v rest
    simp [Consumer.recv, Consumer.popLoop]
  · intro T lockOk fuel q e q' h
    cases lockOk with
    | false =>
      simp [Consumer.recv] at h
      exact ⟨rfl, h.1.symm⟩
    | true =>
      simp only [Consumer.recv, if_pos] at h
      cases hp : Consumer.popLoop fuel q.buf with
      | none => rw [hp] at h; exact absurd h (by simp)
      | some pr =>
        obtain ⟨r, buf'⟩ := pr
        obtain ⟨v, rfl⟩ := popLoop_some hp
        rw [hp] at h
        simp at h
  · intro T fuel cap
    simp [Consumer.recv, popLoop_nil]

/-- Witness for C3 at concrete inputs: a one-element queue yields its
front, and the error case arises at a failed lock. -/
theorem recv_contract_witness :
    Consumer.recv true 1 ({ buf := [5], cap := 7 } : VecDeque Nat) =
      some (Except.ok 5, { buf := [], cap := 7 }) ∧
    (false = false ∧ ({ message := recvLockMsg } : RecvError) = { message := recvLockMsg }) :=
  ⟨recv_contract.1 Nat 0 7 5 [],
   recv_contract.2.1 Nat false 0 { buf := [], cap := 7 } { message := recvLockMsg }
     { buf := [], cap := 7 } rfl⟩

/-- C4: FIFO — sending `v1..vn` with no interleaved pops and then
receiving `n` times returns exactly `v1..vn` in order. -/
theorem fifo_order :
    ∀ (T : Type) (cap : Nat) (vs : List T),
      (recvN vs.length (sendAll (channel T cap) vs)).1 = vs := by
  intro T cap vs
  exact recvN_fst vs _ (by simpa [channel, VecDeque.with_capacity] using sendAll_buf _ vs)

/-- C5: after `k` sends and `j` receives (`j ≤ k`) on a fresh channel
with no concurrent access, `size()` on either handle reports `k - j`. -/
theorem size_accuracy :
    ∀ (T : Type) (cap k j : Nat) (vs : List T), vs.length = k → j ≤ k →
      Producer.size true (recvN j (sendAll (channel T cap) vs)).2 =
        Outcome.ok (k - j) ∧
      Consumer.size true (recvN j (sendAll (channel T cap) vs)).2 =
        Outcome.ok (k - j) := by
  intro T cap k j vs hk _hjk
  have hbuf : (sendAll (channel T cap) vs).buf = vs := by
    simpa [channel, VecDeque.with_capacity] using sendAll_buf (channel T cap) vs
  have hlen : (recvN j (sendAll (channel T cap) vs)).2.buf.length = k - j := by
    rw [recvN_snd_buf, hbuf, List.length_drop, hk]
  exact ⟨by simp [Producer.size, hlen], by simp [Consumer.size, hlen]⟩

/-- Witness for C5: three sends and two receives leave size 1. -/
theorem size_accuracy_witness :
    Producer.size true (recvN 2 (sendAll (channel Nat 2) [10, 20, 30])).2 =
      Outcome.ok (3 - 2) ∧
    Consumer.size true (recvN 2 (sendAll (channel Nat 2) [10, 20, 30])).2 =
      Outcome.ok (3 - 2) :=
  size_accuracy Nat 2 3 2 [10, 20, 30] rfl (by decide)

/-- C6 counterexample: the claim says `SendError<T>` (like `Error` and
`RecvError`) carries a human-readable diagnostic string.  It does not:
`SendError<T>(T)` is a tuple struct holding only the rejected value, so
over `T = Unit` the type has a single inhabitant and no function from
it can reach even two distinct strings — no diagnostic string is
carried. -/
theorem sendError_carries_no_string :
    ¬ ∃ f : SendError Unit → String, Function.Surjective f := by
  rintro ⟨f, hf⟩
  obtain ⟨a, ha⟩ := hf "a"
  obtain ⟨b, hb⟩ := hf "b"
  have hab : a = b := by cases a; cases b; rfl
  rw [hab, hb] at ha
  exact absurd ha (by decide)

/-- C6 amended: `Error` and `RecvError` each carry a human-readable
diagnostic string (their `message` field can hold any string), while
`SendError` carries only the rejected value, whose ownership returns to
the caller, and nothing else. -/
theorem error_payloads :
    Function.Surjective Error.message ∧
    Function.Surjective RecvError.message ∧
    (∀ (T : Type) (v : T), (SendError.mk v).val = v) ∧
    (∀ a b : SendError Unit, a = b) := by
  refine ⟨fun s => ⟨{ message := s }, rfl⟩,
          fun s => ⟨{ message := s }, rfl⟩,
          fun T v => rfl,
          fun a b => by cases a; cases b; rfl⟩

/-- C7: with an acquirable lock, `Producer::send` succeeds on every
queue state — including states whose length equals or exceeds the
capacity — and appends the value to the back; it never blocks and
never fails on a full queue. -/
theorem send_never_fails_on_full :
    ∀ (T : Type) (q : VecDeque T) (v : T),
      Producer.send true q v = Outcome.ok (q.push_back v) ∧
      (q.push_back v).buf = q.buf ++ [v] :=
  fun _ _ _ => ⟨rfl, rfl⟩

/-- C8: `capacity()` is monotonically non-decreasing - after any
sequence of sends and receives the reported capacity is at least the
one reported before (push can only grow the ring buffer, pop never
shrinks it). -/
theorem capacity_monotone :
    ∀ (T : Type) (q : VecDeque T) (ops : List (Op T)),
      Producer.capacity true q = Outcome.ok q.cap ∧
      Consumer.capacity true (runOps q ops) = Outcome.ok (runOps q ops).cap ∧
      q.cap ≤ (runOps q ops).cap :=
  fun _ q ops => ⟨rfl, rfl, cap_le_runOps q ops⟩

/-- C9: the demo scenario — `channel(64)`, producer sends `1..30`
(the 29 values 1..=29), consumer receives 29 values — sums to 435. -/
theorem demo_sum :
    (recvN 29 (sendAll (channel Nat 64) (List.range' 1 29))).1.sum = 435 ∧
    (channel Nat 64).cap = 127 := by
  constructor <;> rfl

/-- C10: in `Consumer::recv`, once the lock is acquired, any execution
that terminates returns an `Ok` value: the internal loop only breaks
after `pop_front` returned `Some`, so the post-loop branch producing
the "pop_front() returned None" `RecvError` is unreachable. -/
theorem recv_none_branch_unreachable :
    ∀ (T : Type) (fuel : Nat) (q : VecDeque T) (res : Except RecvError T)
      (q' : VecDeque T),
      Consumer.recv true fuel q = some (res, q') → isOkE res = true := by
  intro T fuel q res q' h
  simp only [Consumer.recv, if_pos] at h
  cases hp : Consumer.popLoop fuel q.buf with
  | none => rw [hp] at h; exact absurd h (by simp)
  | some pr =>
    obtain ⟨r, buf'⟩ := pr
    obtain ⟨v, rfl⟩ := popLoop_some hp
    rw [hp] at h
    simp at h
    rw [← h.1]
    rfl

/-- Witness for C10: a terminating `recv` on a one-element queue
returns an `Ok` result. -/
theorem recv_none_branch_unreachable_witness :
    isOkE (Except.ok 3 : Except RecvError Nat) = true :=
  recv_none_branch_unreachable Nat 1 { buf := [3], cap := 4 }
    (Except.ok 3) { buf := [], cap := 4 } rfl

end Spsc
